import Mathlib

/-!
Shallow embedding of the two SBA booking-notification serverless functions:
the Gmail-OAuth2 variant (src/index.js) and the SMTP variant
(src/unnamed/part_000).  JavaScript values are modelled by `Js`, JS
truthiness by `truthy`, property access by `getProp`, the `x || y` idiom by
`jsOr`, and `String(x)` coercion by `jsToString`.  The effectful
collaborators (JSON.parse, the OAuth token exchange, `transporter.sendMail`,
the wall clock) enter the handlers as explicit parameters, and the observable
effects (HTTP response, whether a token exchange happened, how many send
attempts were made, the mail options handed to the transport) are collected
in an `Outcome` record.
-/

/-- JSON-style JavaScript runtime values (numbers restricted to integers;
no claim depends on float formatting). -/
inductive Js where
  | null : Js
  | bool : Bool → Js
  | num : Int → Js
  | str : String → Js
  | arr : List Js → Js
  | obj : List (String × Js) → Js

/-- JavaScript truthiness of a value. -/
def truthy : Js → Bool
  | Js.null => false
  | Js.bool b => b
  | Js.num n => decide (n ≠ 0)
  | Js.str s => decide (s ≠ "")
  | Js.arr _ => true
  | Js.obj _ => true

/-- First-match association lookup, modelling JS object property access
(JSON-produced objects have unique keys). -/
def lookupStr (k : String) : List (String × Js) → Option Js
  | [] => none
  | (k2, v) :: rest => if k = k2 then some v else lookupStr k rest

/-- `v.k` property access; `none` models JS `undefined` (property access on
non-objects yields `undefined`). -/
def getProp (v : Js) (k : String) : Option Js :=
  match v with
  | Js.obj fields => lookupStr k fields
  | _ => none

/-- The JS `x || y` idiom applied to a possibly-undefined `x`. -/
def jsOr (x : Option Js) (y : Js) : Js :=
  match x with
  | some v => if truthy v then v else y
  | none => y

/-- Truthiness of `payload.k` (undefined is falsy). -/
def truthyProp (p : Js) (k : String) : Bool :=
  match getProp p k with
  | some v => truthy v
  | none => false

mutual
/-- JS `String(x)` coercion. -/
def jsToString : Js → String
  | Js.null => "null"
  | Js.bool b => cond b "true" "false"
  | Js.num n => toString n
  | Js.str s => s
  | Js.arr xs => jsArrToString xs
  | Js.obj _ => "[object Object]"

/-- JS array-to-string: elements joined with commas. -/
def jsArrToString : List Js → String
  | [] => ""
  | [x] => jsArrElem x
  | x :: xs => jsArrElem x ++ "," ++ jsArrToString xs

/-- JS array element stringification (null renders empty inside arrays). -/
def jsArrElem : Js → String
  | Js.null => ""
  | Js.bool b => cond b "true" "false"
  | Js.num n => toString n
  | Js.str s => s
  | Js.arr xs => jsArrToString xs
  | Js.obj _ => "[object Object]"
end

/-- The apostrophe character (code point 39). -/
def aposChar : Char := Char.ofNat 39

/-- One global single-character replacement, modelling a JS
`String.prototype.replace` with a one-character global regex such as
`/&/g`. -/
def replaceChar (c : Char) (r : String) (s : String) : String :=
  ⟨s.data.flatMap (fun ch => if ch = c then r.data else [ch])⟩

/-- The `input ?? ""` null-coalescing step of `escapeHtml` (`none` models
JS undefined). -/
def coalesce (input : Option Js) : Js :=
  match input with
  | some Js.null => Js.str ""
  | some v => v
  | none => Js.str ""

/-- The `escapeHtml` helper of both source files: sequentially replaces
ampersand, angle brackets, double quote and apostrophe with HTML entities;
`input ?? ""` coalesces null/undefined to the empty string before the
`String(...)` coercion. -/
def escapeHtml (input : Option Js) : String :=
  replaceChar aposChar "&#039;"
    (replaceChar '"' "&quot;"
      (replaceChar '>' "&gt;"
        (replaceChar '<' "&lt;"
          (replaceChar '&' "&amp;"
            (jsToString (coalesce input))))))

/-- Request-body step of both handlers: a string body is JSON-decoded,
falling back to an empty object on decode failure; an already-parsed body
is used as is.  `parseJson` stands for the external `JSON.parse`
(`none` models a parse exception). -/
def parseReqBody (parseJson : String → Option Js) (reqBody : Sum String Js) : Js :=
  match reqBody with
  | Sum.inl s =>
    match parseJson s with
    | some j => j
    | none => Js.obj []
  | Sum.inr j => j

/-- JS `typeof v === "object"` (true for null, arrays and objects). -/
def typeofIsObject : Js → Bool
  | Js.null => true
  | Js.arr _ => true
  | Js.obj _ => true
  | _ => false

/-- Payload selection of both handlers:
`body?.payload && typeof body.payload === "object" ? body.payload : body || \x7b\x7d`. -/
def normalizePayload (body : Js) : Js :=
  match getProp body "payload" with
  | some p =>
    if truthy p && typeofIsObject p then p
    else if truthy body then body else Js.obj []
  | none => if truthy body then body else Js.obj []

/-- The normalized Booking Submission record (the block of `const` field
extractions shared by both source files). -/
structure Submission where
  fullName : Js
  userEmail : Js
  phone : Js
  experience : Js
  goals : Js
  message : Js
  cycle : Js
  cycleLabel : Js
  pkg : Js
  packageLabel : Js

/-- Field extraction with the source's fallback chains and defaults. -/
def extractSubmission (payload : Js) : Submission :=
  { fullName := jsOr (getProp payload "fullName") (jsOr (getProp payload "name") (Js.str "Unknown"))
  , userEmail := jsOr (getProp payload "email") (Js.str "Unknown")
  , phone := jsOr (getProp payload "phone") (jsOr (getProp payload "whatsapp") (Js.str "Unknown"))
  , experience := jsOr (getProp payload "experience") (Js.str "Unknown")
  , goals := jsOr (getProp payload "goals") (Js.str "")
  , message := jsOr (getProp payload "message") (Js.str "")
  , cycle := jsOr (getProp payload "cycle") (Js.str "Unknown")
  , cycleLabel := jsOr (getProp payload "cycleLabel") (jsOr (getProp payload "cycle") (Js.str "Unknown"))
  , pkg := jsOr (getProp payload "package") (Js.str "Unknown")
  , packageLabel := jsOr (getProp payload "packageLabel") (jsOr (getProp payload "package") (Js.str "Unknown")) }

/-- The `missing` list built by the validator of both source files, in
source push order. -/
def missing (payload : Js) : List String :=
  (if !truthyProp payload "fullName" && !truthyProp payload "name" then ["fullName"] else []) ++
  (if !truthyProp payload "email" then ["email"] else []) ++
  (if !truthyProp payload "phone" && !truthyProp payload "whatsapp" then ["phone"] else []) ++
  (if !truthyProp payload "cycle" && !truthyProp payload "cycleLabel" then ["cycle"] else []) ++
  (if !truthyProp payload "package" && !truthyProp payload "packageLabel" then ["package"] else [])

/-- The inline `logoBlock` template constant shared by both source files. -/
def logoBlock : String :=
"
      <div style=\"display:flex;align-items:center;gap:14px;\">
        <div style=\"width:44px;height:44px;background:#b91c1c;border-radius:999px;display:flex;align-items:center;justify-content:center;\">
          <div style=\"font-family:Arial,Helvetica,sans-serif;font-weight:800;font-style:italic;letter-spacing:-1px;color:#fff;font-size:18px;\">
            SBA
          </div>
        </div>
        <div>
          <div style=\"font-family:Arial,Helvetica,sans-serif;font-weight:800;letter-spacing:3px;text-transform:uppercase;color:#fff;font-size:14px;line-height:1;\">
            Silva Boxing Academy
          </div>
          <div style=\"font-family:Arial,Helvetica,sans-serif;color:#9ca3af;font-size:11px;letter-spacing:2px;text-transform:uppercase;margin-top:6px;\">
            Booking Request Notification
          </div>
        </div>
      </div>
    "

/-- The optional Notes panel: `goals ? ... : ""` and `message ? ... : ""`
inside the `(goals || message) ? ... : ""` conditional of the template. -/
def notesBlock (goals message : Js) : String :=
"
              <div style=\"border:1px solid #222;background:#0b0b0b;border-radius:10px;padding:16px;margin-bottom:16px;\">
                <div style=\"color:#b91c1c;font-family:Arial,Helvetica,sans-serif;font-weight:800;text-transform:uppercase;letter-spacing:2px;font-size:11px;margin-bottom:10px;\">
                  Notes
                </div>
                " ++
  (if truthy goals then
"
                  <div style=\"margin-bottom:10px;\">
                    <div style=\"color:#9ca3af;font-family:Arial,Helvetica,sans-serif;font-size:12px;text-transform:uppercase;letter-spacing:2px;margin-bottom:6px;\">
                      Primary Goals
                    </div>
                    <div style=\"color:#fff;font-family:Arial,Helvetica,sans-serif;font-size:13px;line-height:1.6;\">
                      " ++ escapeHtml (some goals) ++ "
                    </div>
                  </div>
                " else "") ++ "
                " ++
  (if truthy message then
"
                  <div>
                    <div style=\"color:#9ca3af;font-family:Arial,Helvetica,sans-serif;font-size:12px;text-transform:uppercase;letter-spacing:2px;margin-bottom:6px;\">
                      Message
                    </div>
                    <div style=\"color:#fff;font-family:Arial,Helvetica,sans-serif;font-size:13px;line-height:1.6;white-space:pre-wrap;\">
                      " ++ escapeHtml (some message) ++ "
                    </div>
                  </div>
                " else "") ++ "
              </div>
            "

/-- The `html` template literal shared (up to insignificant whitespace) by
both source files: every user-supplied value is interpolated through
`escapeHtml`. -/
def renderHtml (now : String) (s : Submission) : String :=
"
      <div style=\"background:#0a0a0a;padding:28px;margin:0;\">
        <div style=\"max-width:720px;margin:0 auto;border:1px solid #222;background:#111;border-radius:10px;overflow:hidden;\">

          <div style=\"padding:22px 22px 18px 22px;border-bottom:1px solid #222;\">
            " ++ logoBlock ++ "
          </div>

          <div style=\"padding:22px;\">
            <h2 style=\"margin:0 0 10px 0;font-family:Arial,Helvetica,sans-serif;color:#fff;text-transform:uppercase;letter-spacing:2px;font-size:18px;\">
              New Cycle Booking Request
            </h2>
            <p style=\"margin:0 0 18px 0;color:#9ca3af;font-family:Arial,Helvetica,sans-serif;font-size:13px;line-height:1.6;\">
              A user submitted a booking request via the SBA website form. Details below.
            </p>

            <div style=\"display:block;border:1px solid #222;background:#0b0b0b;border-radius:10px;padding:16px;margin-bottom:16px;\">
              <div style=\"color:#b91c1c;font-family:Arial,Helvetica,sans-serif;font-weight:800;text-transform:uppercase;letter-spacing:2px;font-size:11px;margin-bottom:10px;\">
                Booking Selection
              </div>
              <div style=\"display:flex;gap:12px;flex-wrap:wrap;\">
                <div style=\"flex:1;min-width:220px;border:1px solid #222;border-radius:10px;padding:12px;background:#111;\">
                  <div style=\"color:#9ca3af;font-family:Arial,Helvetica,sans-serif;font-size:11px;text-transform:uppercase;letter-spacing:2px;margin-bottom:6px;\">
                    Cycle
                  </div>
                  <div style=\"color:#fff;font-family:Arial,Helvetica,sans-serif;font-size:14px;font-weight:700;\">
                    " ++ escapeHtml (some s.cycleLabel) ++ "
                  </div>
                </div>

                <div style=\"flex:1;min-width:220px;border:1px solid #222;border-radius:10px;padding:12px;background:#111;\">
                  <div style=\"color:#9ca3af;font-family:Arial,Helvetica,sans-serif;font-size:11px;text-transform:uppercase;letter-spacing:2px;margin-bottom:6px;\">
                    Package
                  </div>
                  <div style=\"color:#fff;font-family:Arial,Helvetica,sans-serif;font-size:14px;font-weight:700;\">
                    " ++ escapeHtml (some s.packageLabel) ++ "
                  </div>
                </div>
              </div>
            </div>

            <div style=\"border:1px solid #222;background:#0b0b0b;border-radius:10px;padding:16px;margin-bottom:16px;\">
              <div style=\"color:#b91c1c;font-family:Arial,Helvetica,sans-serif;font-weight:800;text-transform:uppercase;letter-spacing:2px;font-size:11px;margin-bottom:10px;\">
                Contact Details
              </div>

              <table style=\"width:100%;border-collapse:collapse;\">
                <tr>
                  <td style=\"padding:8px 0;color:#9ca3af;font-family:Arial,Helvetica,sans-serif;font-size:12px;text-transform:uppercase;letter-spacing:2px;width:160px;\">
                    Full Name
                  </td>
                  <td style=\"padding:8px 0;color:#fff;font-family:Arial,Helvetica,sans-serif;font-size:13px;font-weight:700;\">
                    " ++ escapeHtml (some s.fullName) ++ "
                  </td>
                </tr>
                <tr>
                  <td style=\"padding:8px 0;color:#9ca3af;font-family:Arial,Helvetica,sans-serif;font-size:12px;text-transform:uppercase;letter-spacing:2px;\">
                    Email
                  </td>
                  <td style=\"padding:8px 0;color:#fff;font-family:Arial,Helvetica,sans-serif;font-size:13px;\">
                    " ++ escapeHtml (some s.userEmail) ++ "
                  </td>
                </tr>
                <tr>
                  <td style=\"padding:8px 0;color:#9ca3af;font-family:Arial,Helvetica,sans-serif;font-size:12px;text-transform:uppercase;letter-spacing:2px;\">
                    Phone / WhatsApp
                  </td>
                  <td style=\"padding:8px 0;color:#fff;font-family:Arial,Helvetica,sans-serif;font-size:13px;\">
                    " ++ escapeHtml (some s.phone) ++ "
                  </td>
                </tr>
                <tr>
                  <td style=\"padding:8px 0;color:#9ca3af;font-family:Arial,Helvetica,sans-serif;font-size:12px;text-transform:uppercase;letter-spacing:2px;\">
                    Experience
                  </td>
                  <td style=\"padding:8px 0;color:#fff;font-family:Arial,Helvetica,sans-serif;font-size:13px;\">
                    " ++ escapeHtml (some s.experience) ++ "
                  </td>
                </tr>
              </table>
            </div>

            " ++ (if truthy s.goals || truthy s.message then notesBlock s.goals s.message else "") ++ "

            <div style=\"padding-top:10px;border-top:1px solid #222;color:#6b7280;font-family:Arial,Helvetica,sans-serif;font-size:11px;line-height:1.6;\">
              Received: " ++ escapeHtml (some (Js.str now)) ++ " (Europe/Berlin)<br/>
              This email was generated automatically from the SBA Cycle Booking Form.
            </div>
          </div>
        </div>
      </div>
    "

/-- The subject template literal:
`SBA Booking Request — <fullName> — <cycleLabel>`. -/
def renderSubject (s : Submission) : String :=
  "SBA Booking Request — " ++ jsToString s.fullName ++ " — " ++ jsToString s.cycleLabel

/-- `replyTo: userEmail !== "Unknown" ? userEmail : undefined` — strict
inequality against the string "Unknown". -/
def replyToOf (userEmail : Js) : Option Js :=
  match userEmail with
  | Js.str s => if s = "Unknown" then none else some (Js.str s)
  | v => some v

/-- The `mailOptions` object handed to `transporter.sendMail`. -/
structure MailOptions where
  fromField : String
  toField : String
  replyTo : Option Js
  subject : String
  html : String

/-- Truthiness of an environment variable (a string, or undefined). -/
def envTruthy (x : Option String) : Bool :=
  match x with
  | some s => decide (s ≠ "")
  | none => false

/-- `process.env.X || default`. -/
def envOr (x : Option String) (d : String) : String :=
  match x with
  | some s => if s ≠ "" then s else d
  | none => d

/-- Template-literal interpolation of a possibly-undefined env var
(JS renders undefined as the text "undefined"). -/
def envInterp (x : Option String) : String :=
  match x with
  | some s => s
  | none => "undefined"

/-- Environment of the OAuth2 variant (src/index.js). -/
structure OAuthEnv where
  GOOGLE_CLIENT_ID : Option String
  GOOGLE_CLIENT_SECRET : Option String
  GOOGLE_REFRESH_TOKEN : Option String
  GMAIL_SENDER : Option String
  SBA_ADMIN_EMAIL : Option String

/-- Environment of the SMTP variant (src/unnamed/part_000). -/
structure SmtpEnv where
  SMTP_HOST : Option String
  SMTP_PORT : Option String
  SMTP_SECURE : Option String
  SMTP_USER : Option String
  SMTP_PASS : Option String
  SBA_ADMIN_EMAIL : Option String

/-- Observable effects of one OAuth2-variant invocation. -/
structure Outcome where
  response : Js × Nat
  tokenExchanged : Bool
  sendCount : Nat
  mail : Option MailOptions

/-- The `createTransport` argument of the SMTP variant, as built from raw
environment values (the numeric `parseInt` on the port is elided: the raw
`SMTP_PORT || "587"` string is kept, no claim depends on the number). -/
structure SmtpTransportConfig where
  host : Option String
  portRaw : String
  secure : Bool
  authUser : Option String
  authPass : Option String

/-- Observable effects of one SMTP-variant invocation. -/
structure SmtpOutcome where
  response : Js × Nat
  sendCount : Nat
  mail : Option MailOptions
  transport : Option SmtpTransportConfig

/-- The fixed message of the OAuth2 missing-configuration 500 response. -/
def oauthEnvErrMsg : String :=
  "Missing Gmail OAuth env vars. Required: GOOGLE_CLIENT_ID, GOOGLE_CLIENT_SECRET, GOOGLE_REFRESH_TOKEN"

/-- The fixed message of the token-mint-failure 500 response. -/
def mintErrMsg : String := "Failed to mint Gmail access token."

/-- A failure response body. -/
def errBody (msg : String) : Js :=
  Js.obj [("ok", Js.bool false), ("error", Js.str msg)]

/-- The success response body. -/
def okBody : Js := Js.obj [("ok", Js.bool true)]

/-- The Gmail-OAuth2 handler of src/index.js.  `parseJson` models
`JSON.parse`, `tokenRes` the `oAuth2Client.getAccessToken()` exchange
(`Except.error` a thrown exception, the `Option String` the `.token` field),
`sendRes` the `transporter.sendMail` call, `now` the formatted
Europe/Berlin timestamp. -/
def sbaOauthHandler (env : OAuthEnv) (parseJson : String → Option Js)
    (tokenRes : Except String (Option String)) (sendRes : Except String Unit)
    (now : String) (reqBody : Sum String Js) : Outcome :=
  let body := parseReqBody parseJson reqBody
  let payload := normalizePayload body
  if (missing payload).length != 0 then
    { response := (errBody ("Missing required fields: " ++ String.intercalate ", " (missing payload)), 400)
    , tokenExchanged := false, sendCount := 0, mail := none }
  else if !envTruthy env.GOOGLE_CLIENT_ID || !envTruthy env.GOOGLE_CLIENT_SECRET
       || !envTruthy env.GOOGLE_REFRESH_TOKEN then
    { response := (errBody oauthEnvErrMsg, 500)
    , tokenExchanged := false, sendCount := 0, mail := none }
  else
    match tokenRes with
    | Except.error _ =>
      { response := (errBody mintErrMsg, 500)
      , tokenExchanged := true, sendCount := 0, mail := none }
    | Except.ok tok =>
      let accessToken := match tok with | some t => t | none => ""
      if accessToken = "" then
        { response := (errBody mintErrMsg, 500)
        , tokenExchanged := true, sendCount := 0, mail := none }
      else
        let GMAIL_SENDER := envOr env.GMAIL_SENDER "silvaboxingacademy@gmail.com"
        let TO_EMAIL := envOr env.SBA_ADMIN_EMAIL "silvaboxingacademy@gmail.com"
        let sub := extractSubmission payload
        let mailOptions : MailOptions :=
          { fromField := "\"SBA Website\" <" ++ GMAIL_SENDER ++ ">"
          , toField := TO_EMAIL
          , replyTo := replyToOf sub.userEmail
          , subject := renderSubject sub
          , html := renderHtml now sub }
        match sendRes with
        | Except.ok _ =>
          { response := (okBody, 200), tokenExchanged := true, sendCount := 1, mail := some mailOptions }
        | Except.error m =>
          { response := (errBody m, 500), tokenExchanged := true, sendCount := 1, mail := some mailOptions }

/-- The SMTP handler of src/unnamed/part_000.  Note: it performs no
configuration check — the transporter is built directly from the raw
environment values. -/
def smtpHandler (env : SmtpEnv) (parseJson : String → Option Js)
    (sendRes : Except String Unit) (now : String) (reqBody : Sum String Js) : SmtpOutcome :=
  let body := parseReqBody parseJson reqBody
  let payload := normalizePayload body
  if (missing payload).length != 0 then
    { response := (errBody ("Missing required fields: " ++ String.intercalate ", " (missing payload)), 400)
    , sendCount := 0, mail := none, transport := none }
  else
    let transportConfig : SmtpTransportConfig :=
      { host := env.SMTP_HOST
      , portRaw := envOr env.SMTP_PORT "587"
      , secure := env.SMTP_SECURE = some "true"
      , authUser := env.SMTP_USER
      , authPass := env.SMTP_PASS }
    let TO_EMAIL := envOr env.SBA_ADMIN_EMAIL "silvaboxingacademy@gmail.com"
    let sub := extractSubmission payload
    let mailOptions : MailOptions :=
      { fromField := "\"SBA Website\" <" ++ envInterp env.SMTP_USER ++ ">"
      , toField := TO_EMAIL
      , replyTo := replyToOf sub.userEmail
      , subject := renderSubject sub
      , html := renderHtml now sub }
    match sendRes with
    | Except.ok _ =>
      { response := (okBody, 200), sendCount := 1, mail := some mailOptions, transport := some transportConfig }
    | Except.error m =>
      { response := (errBody m, 500), sendCount := 1, mail := some mailOptions, transport := some transportConfig }

/-! ### Characterisation of the `escapeHtml` output

The five sequential single-character global replacements compose to one
character-wise expansion `escData` (later passes never touch the entity
text introduced by earlier ones), whose output contains no markup
character and whose every ampersand starts one of the five entities. -/

/-- List-level single-character global replacement. -/
def rcL (c : Char) (r : List Char) (l : List Char) : List Char :=
  l.flatMap (fun ch => if ch = c then r else [ch])

/-- Per-character effect of the composed five replacements. -/
def escData (ch : Char) : List Char :=
  if ch = '&' then ['&', 'a', 'm', 'p', ';']
  else if ch = '<' then ['&', 'l', 't', ';']
  else if ch = '>' then ['&', 'g', 't', ';']
  else if ch = '"' then ['&', 'q', 'u', 'o', 't', ';']
  else if ch = aposChar then ['&', '#', '0', '3', '9', ';']
  else [ch]

/-- The character-list level composite of the five replacements of
`escapeHtml`. -/
def escL (l : List Char) : List Char :=
  rcL aposChar ['&', '#', '0', '3', '9', ';']
    (rcL '"' ['&', 'q', 'u', 'o', 't', ';']
      (rcL '>' ['&', 'g', 't', ';']
        (rcL '<' ['&', 'l', 't', ';']
          (rcL '&' ['&', 'a', 'm', 'p', ';'] l))))

/-- No markup-significant character (angle bracket or double quote). -/
def markupFree (l : List Char) : Bool :=
  l.all fun c => !(c = '<' || c = '>' || c = '"')

/-- Does the list start with the tail of one of the five entities emitted
by `escapeHtml`? -/
def entityTail (l : List Char) : Bool :=
  List.isPrefixOf ['a', 'm', 'p', ';'] l ||
  List.isPrefixOf ['l', 't', ';'] l ||
  List.isPrefixOf ['g', 't', ';'] l ||
  List.isPrefixOf ['q', 'u', 'o', 't', ';'] l ||
  List.isPrefixOf ['#', '0', '3', '9', ';'] l

/-- Every ampersand in the list starts one of the five HTML entities —
i.e. there is no unescaped ampersand. -/
def ampsOk : List Char → Bool
  | [] => true
  | c :: rest => (if c = '&' then entityTail rest else true) && ampsOk rest

/-- A string is safe for interpolation into HTML text position: it has no
angle bracket or double quote, and every ampersand starts one of the five
entities emitted by `escapeHtml`. -/
def htmlSafePiece (s : String) : Bool :=
  markupFree s.data && ampsOk s.data

/-! ### Concrete fixtures used by witnesses and counterexamples -/

/-- A payload carrying all five required fields. -/
def validPayload : Js :=
  Js.obj [("fullName", Js.str "John Doe"), ("email", Js.str "john@email.com"),
          ("phone", Js.str "+49 123"), ("cycle", Js.str "cycle-1"), ("package", Js.str "p3")]

/-- A payload with a markup-injection attempt in the name field. -/
def injPayload : Js :=
  Js.obj [("fullName", Js.str "<script>alert(1)</script>"), ("email", Js.str "a@b.c"),
          ("phone", Js.str "+1"), ("cycle", Js.str "c1"), ("package", Js.str "p1")]

/-- A payload missing email and phone. -/
def gapPayload : Js :=
  Js.obj [("fullName", Js.str "Ana"), ("cycle", Js.str "c1"), ("package", Js.str "p1")]

/-- A JSON.parse stub that always fails. -/
def parseNone : String → Option Js := fun _ => none

/-- A JSON.parse stub that always yields `j`. -/
def parseTo (j : Js) : String → Option Js := fun _ => some j

/-- A fully-configured OAuth2 environment. -/
def envOkW : OAuthEnv :=
  { GOOGLE_CLIENT_ID := some "cid", GOOGLE_CLIENT_SECRET := some "sec"
  , GOOGLE_REFRESH_TOKEN := some "ref", GMAIL_SENDER := some "sender@gmail.com"
  , SBA_ADMIN_EMAIL := none }

/-- An OAuth2 environment missing the client id. -/
def envNoCid : OAuthEnv :=
  { GOOGLE_CLIENT_ID := none, GOOGLE_CLIENT_SECRET := some "sec"
  , GOOGLE_REFRESH_TOKEN := some "ref", GMAIL_SENDER := none, SBA_ADMIN_EMAIL := none }

/-- An SMTP environment with every variable absent. -/
def smtpEnvNone : SmtpEnv :=
  { SMTP_HOST := none, SMTP_PORT := none, SMTP_SECURE := none
  , SMTP_USER := none, SMTP_PASS := none, SBA_ADMIN_EMAIL := none }

/-- A successful token exchange. -/
def tokOkW : Except String (Option String) := Except.ok (some "tok")

/-- The canonical required-field names in the validator's fixed order. -/
def requiredOrder : List String := ["fullName", "email", "phone", "cycle", "package"]

/-- Whether a required canonical field (by name) is missing from the
payload, following the spec's description of the five checks. -/
def requiredMissing (p : Js) (f : String) : Bool :=
  if f = "fullName" then !truthyProp p "fullName" && !truthyProp p "name"
  else if f = "email" then !truthyProp p "email"
  else if f = "phone" then !truthyProp p "phone" && !truthyProp p "whatsapp"
  else if f = "cycle" then !truthyProp p "cycle" && !truthyProp p "cycleLabel"
  else if f = "package" then !truthyProp p "package" && !truthyProp p "packageLabel"
  else false

/-- A payload using only the alternate keys (name, whatsapp, cycle,
packageLabel). -/
def altKeysPayload : Js :=
  Js.obj [("name", Js.str "N"), ("email", Js.str "e@x"),
    ("whatsapp", Js.str "W"), ("cycle", Js.str "CY"), ("packageLabel", Js.str "PL")]

lemma escapeHtml_data (input : Option Js) :
    (escapeHtml input).data = escL (jsToString (coalesce input)).data := rfl

lemma rcL_cons (c : Char) (r : List Char) (ch : Char) (t : List Char) :
    rcL c r (ch :: t) = (if ch = c then r else [ch]) ++ rcL c r t := by
  simp [rcL]

lemma rcL_append (c : Char) (r : List Char) (l m : List Char) :
    rcL c r (l ++ m) = rcL c r l ++ rcL c r m := by
  simp [rcL]

lemma escL_append (l m : List Char) : escL (l ++ m) = escL l ++ escL m := by
  simp [escL, rcL_append]

lemma escL_singleton (ch : Char) : escL [ch] = escData ch := by
  by_cases h1 : ch = '&'
  · subst h1; decide
  by_cases h2 : ch = '<'
  · subst h2; decide
  by_cases h3 : ch = '>'
  · subst h3; decide
  by_cases h4 : ch = '"'
  · subst h4; decide
  by_cases h5 : ch = aposChar
  · subst h5; decide
  simp [escL, rcL, escData, h1, h2, h3, h4, h5]

lemma escL_eq_flatMap (l : List Char) : escL l = l.flatMap escData := by
  induction l with
  | nil => rfl
  | cons ch t ih =>
    have : ch :: t = [ch] ++ t := rfl
    rw [this, escL_append, escL_singleton, List.flatMap_append, ih]
    simp

lemma ampsOk_cons_amp (t : List Char) :
    ampsOk ('&' :: t) = (entityTail t && ampsOk t) := by
  simp [ampsOk]

lemma ampsOk_cons_ne {c : Char} (h : c ≠ '&') (t : List Char) :
    ampsOk (c :: t) = ampsOk t := by
  simp [ampsOk, h]

lemma escData_markupFree (ch : Char) :
    (escData ch).all (fun c => !(c = '<' || c = '>' || c = '"')) = true := by
  by_cases h1 : ch = '&'
  · subst h1; decide
  by_cases h2 : ch = '<'
  · subst h2; decide
  by_cases h3 : ch = '>'
  · subst h3; decide
  by_cases h4 : ch = '"'
  · subst h4; decide
  by_cases h5 : ch = aposChar
  · subst h5; decide
  simp [escData, h1, h2, h3, h4, h5]

lemma ampsOk_chunk (ch : Char) (t : List Char) (h : ampsOk t = true) :
    ampsOk (escData ch ++ t) = true := by
  by_cases h1 : ch = '&'
  · subst h1
    rw [show escData '&' = ['&', 'a', 'm', 'p', ';'] from rfl]
    rw [show ['&', 'a', 'm', 'p', ';'] ++ t = '&' :: 'a' :: 'm' :: 'p' :: ';' :: t from rfl]
    rw [ampsOk_cons_amp]
    rw [ampsOk_cons_ne (by decide), ampsOk_cons_ne (by decide),
        ampsOk_cons_ne (by decide), ampsOk_cons_ne (by decide), h]
    simp [entityTail, List.isPrefixOf]
  by_cases h2 : ch = '<'
  · subst h2
    rw [show escData '<' = ['&', 'l', 't', ';'] from rfl]
    rw [show ['&', 'l', 't', ';'] ++ t = '&' :: 'l' :: 't' :: ';' :: t from rfl]
    rw [ampsOk_cons_amp]
    rw [ampsOk_cons_ne (by decide), ampsOk_cons_ne (by decide),
        ampsOk_cons_ne (by decide), h]
    simp [entityTail, List.isPrefixOf]
  by_cases h3 : ch = '>'
  · subst h3
    rw [show escData '>' = ['&', 'g', 't', ';'] from rfl]
    rw [show ['&', 'g', 't', ';'] ++ t = '&' :: 'g' :: 't' :: ';' :: t from rfl]
    rw [ampsOk_cons_amp]
    rw [ampsOk_cons_ne (by decide), ampsOk_cons_ne (by decide),
        ampsOk_cons_ne (by decide), h]
    simp [entityTail, List.isPrefixOf]
  by_cases h4 : ch = '"'
  · subst h4
    rw [show escData '"' = ['&', 'q', 'u', 'o', 't', ';'] from rfl]
    rw [show ['&', 'q', 'u', 'o', 't', ';'] ++ t = '&' :: 'q' :: 'u' :: 'o' :: 't' :: ';' :: t from rfl]
    rw [ampsOk_cons_amp]
    rw [ampsOk_cons_ne (by decide), ampsOk_cons_ne (by decide),
        ampsOk_cons_ne (by decide), ampsOk_cons_ne (by decide),
        ampsOk_cons_ne (by decide), h]
    simp [entityTail, List.isPrefixOf]
  by_cases h5 : ch = aposChar
  · subst h5
    rw [show escData aposChar = ['&', '#', '0', '3', '9', ';'] from rfl]
    rw [show ['&', '#', '0', '3', '9', ';'] ++ t = '&' :: '#' :: '0' :: '3' :: '9' :: ';' :: t from rfl]
    rw [ampsOk_cons_amp]
    rw [ampsOk_cons_ne (by decide), ampsOk_cons_ne (by decide),
        ampsOk_cons_ne (by decide), ampsOk_cons_ne (by decide),
        ampsOk_cons_ne (by decide), h]
    simp [entityTail, List.isPrefixOf]
  have h6 : escData ch = [ch] := by simp [escData, h1, h2, h3, h4, h5]
  rw [h6, List.singleton_append, ampsOk_cons_ne h1, h]

lemma all_flatMap (l : List Char) (p : Char → Bool) (f : Char → List Char) :
    (l.flatMap f).all p = l.all fun a => (f a).all p := by
  induction l with
  | nil => rfl
  | cons a t ih => simp [List.flatMap_cons, List.all_append, ih]

lemma markupFree_escL (l : List Char) : markupFree (escL l) = true := by
  rw [escL_eq_flatMap, markupFree, all_flatMap]
  have h : (fun a => (escData a).all fun c => !(c = '<' || c = '>' || c = '"'))
      = fun _ => true := by
    funext a; exact escData_markupFree a
  rw [h]
  simp

lemma ampsOk_escL (l : List Char) : ampsOk (escL l) = true := by
  rw [escL_eq_flatMap]
  induction l with
  | nil => rfl
  | cons a t ih =>
    rw [List.flatMap_cons]
    exact ampsOk_chunk a _ ih

lemma escapeHtml_htmlSafe (input : Option Js) :
    htmlSafePiece (escapeHtml input) = true := by
  rw [htmlSafePiece, escapeHtml_data, markupFree_escL, ampsOk_escL]
  rfl

lemma replyToOf_ne {v : Js} (h : v ≠ Js.str "Unknown") : replyToOf v = some v := by
  cases v with
  | str s =>
    have hs : s ≠ "Unknown" := fun hh => h (by rw [hh])
    simp [replyToOf, hs]
  | null => rfl
  | bool b => rfl
  | num n => rfl
  | arr xs => rfl
  | obj fs => rfl

lemma truthyProp_cons {k : String} {v : Js} {l : List (String × Js)}
    (hv : truthy v = false) (hk : lookupStr k l = none) :
    ∀ q, truthyProp (Js.obj ((k, v) :: l)) q = truthyProp (Js.obj l) q := by
  intro q
  by_cases hq : q = k
  · subst hq
    simp [truthyProp, getProp, lookupStr, hv, hk]
  · simp [truthyProp, getProp, lookupStr, hq]

/-! ### Claim theorems -/

/-- C1: for every submission payload, every user-supplied text value
interpolated into the rendered HTML body (fullName, email, phone,
experience, goals, message, cycleLabel, packageLabel) passes through
`escapeHtml`, whose output never contains a literal angle bracket or
double quote and whose every ampersand starts an HTML entity; the rendered
HTML depends on the user-supplied values only through their escaped forms
(plus the emptiness tests on goals/message), and a fullName containing
"<script>" reaches the renderer only in escaped form. -/
theorem c1_html_escaping :
    (∀ input : Option Js, htmlSafePiece (escapeHtml input) = true) ∧
    (∀ (now : String) (s1 s2 : Submission),
      escapeHtml (some s1.fullName) = escapeHtml (some s2.fullName) →
      escapeHtml (some s1.userEmail) = escapeHtml (some s2.userEmail) →
      escapeHtml (some s1.phone) = escapeHtml (some s2.phone) →
      escapeHtml (some s1.experience) = escapeHtml (some s2.experience) →
      escapeHtml (some s1.goals) = escapeHtml (some s2.goals) →
      escapeHtml (some s1.message) = escapeHtml (some s2.message) →
      escapeHtml (some s1.cycleLabel) = escapeHtml (some s2.cycleLabel) →
      escapeHtml (some s1.packageLabel) = escapeHtml (some s2.packageLabel) →
      truthy s1.goals = truthy s2.goals →
      truthy s1.message = truthy s2.message →
      renderHtml now s1 = renderHtml now s2) ∧
    (extractSubmission injPayload).fullName = Js.str "<script>alert(1)</script>" ∧
    escapeHtml (some (extractSubmission injPayload).fullName)
      = "&lt;script&gt;alert(1)&lt;/script&gt;" := by
  refine ⟨escapeHtml_htmlSafe, ?_, rfl, by decide⟩
  intro now s1 s2 h1 h2 h3 h4 h5 h6 h7 h8 h9 h10
  simp only [renderHtml, notesBlock]
  rw [h1, h2, h3, h4, h5, h6, h7, h8, h9, h10]

/-- C1 witness: two submissions that differ only in the raw `cycle` key
render to the same HTML. -/
theorem c1_html_escaping_witness :
    renderHtml "now" (extractSubmission (Js.obj (("cycle", Js.str "a") :: [("cycleLabel", Js.str "L")])))
      = renderHtml "now" (extractSubmission (Js.obj (("cycle", Js.str "b") :: [("cycleLabel", Js.str "L")]))) :=
  c1_html_escaping.2.1 "now" _ _ rfl rfl rfl rfl rfl rfl rfl rfl rfl rfl

/-- C2: the validator collects, without short-circuiting, exactly the
missing canonical names in the fixed order fullName, email, phone, cycle,
package, and both handlers respond 400 with body
ok=false / error="Missing required fields: " followed by the comma-joined
list. -/
theorem c2_missing_fields :
    (∀ p : Js, missing p = requiredOrder.filter (requiredMissing p)) ∧
    (∀ env parseJson tokenRes sendRes now reqBody,
      missing (normalizePayload (parseReqBody parseJson reqBody)) ≠ [] →
      (sbaOauthHandler env parseJson tokenRes sendRes now reqBody).response =
        (errBody ("Missing required fields: " ++
          String.intercalate ", " (missing (normalizePayload (parseReqBody parseJson reqBody)))), 400)) ∧
    (∀ env parseJson sendRes now reqBody,
      missing (normalizePayload (parseReqBody parseJson reqBody)) ≠ [] →
      (smtpHandler env parseJson sendRes now reqBody).response =
        (errBody ("Missing required fields: " ++
          String.intercalate ", " (missing (normalizePayload (parseReqBody parseJson reqBody)))), 400)) := by
  refine ⟨?_, ?_, ?_⟩
  · intro p
    cases hfn : (!truthyProp p "fullName" && !truthyProp p "name") <;>
    cases hem : (!truthyProp p "email") <;>
    cases hph : (!truthyProp p "phone" && !truthyProp p "whatsapp") <;>
    cases hcy : (!truthyProp p "cycle" && !truthyProp p "cycleLabel") <;>
    cases hpk : (!truthyProp p "package" && !truthyProp p "packageLabel") <;>
    simp [missing, requiredOrder, requiredMissing, List.filter, hfn, hem, hph, hcy, hpk]
  · intro env parseJson tokenRes sendRes now reqBody hm
    have h0 : ((missing (normalizePayload (parseReqBody parseJson reqBody))).length != 0) = true := by
      simpa using hm
    simp [sbaOauthHandler, h0]
  · intro env parseJson sendRes now reqBody hm
    have h0 : ((missing (normalizePayload (parseReqBody parseJson reqBody))).length != 0) = true := by
      simpa using hm
    simp [smtpHandler, h0]

/-- C2 witness: on a concrete payload missing email and phone, the OAuth2
handler responds 400 listing exactly those names in order. -/
theorem c2_missing_fields_witness :
    (sbaOauthHandler envOkW parseNone tokOkW (Except.ok ()) "t" (Sum.inr gapPayload)).response =
      (errBody ("Missing required fields: " ++
        String.intercalate ", " (missing (normalizePayload (parseReqBody parseNone (Sum.inr gapPayload))))), 400) :=
  c2_missing_fields.2.1 envOkW parseNone tokOkW (Except.ok ()) "t" (Sum.inr gapPayload) (by decide)

/-- C3: a string body is structurally decoded with decode failure silently
yielding an empty record; a nested object-typed "payload" field is the
submission source, any other decoded value is used top-level (with falsy
bodies defaulting to an empty record); and a JSON-encoded string body
produces exactly the same outcome as the pre-parsed object body, in both
variants. -/
theorem c3_body_normalization :
    (∀ parseJson s, parseJson s = none → parseReqBody parseJson (Sum.inl s) = Js.obj []) ∧
    (∀ b p, getProp b "payload" = some p → (truthy p && typeofIsObject p) = true →
      normalizePayload b = p) ∧
    (∀ b : Js, (getProp b "payload" = none ∨
        ∃ p, getProp b "payload" = some p ∧ (truthy p && typeofIsObject p) = false) →
      normalizePayload b = if truthy b then b else Js.obj []) ∧
    (∀ parseJson s j env tokenRes sendRes now, parseJson s = some j →
      sbaOauthHandler env parseJson tokenRes sendRes now (Sum.inl s) =
        sbaOauthHandler env parseJson tokenRes sendRes now (Sum.inr j)) ∧
    (∀ parseJson s j env sendRes now, parseJson s = some j →
      smtpHandler env parseJson sendRes now (Sum.inl s) =
        smtpHandler env parseJson sendRes now (Sum.inr j)) := by
  refine ⟨?_, ?_, ?_, ?_, ?_⟩
  · intro parseJson s h
    simp [parseReqBody, h]
  · intro b p hp hob
    simp [normalizePayload, hp, hob]
  · intro b h
    rcases h with h | ⟨p, hp, hob⟩
    · simp [normalizePayload, h]
    · simp [normalizePayload, hp, hob]
  · intro parseJson s j env tokenRes sendRes now h
    simp only [sbaOauthHandler, parseReqBody, h]
  · intro parseJson s j env sendRes now h
    simp only [smtpHandler, parseReqBody, h]

/-- C3 witness: a failing parse yields the empty record, and a string body
that parses to the valid payload is handled identically to the pre-parsed
payload. -/
theorem c3_body_normalization_witness :
    parseReqBody parseNone (Sum.inl "not json") = Js.obj [] ∧
    sbaOauthHandler envOkW (parseTo validPayload) tokOkW (Except.ok ()) "t" (Sum.inl "s") =
      sbaOauthHandler envOkW (parseTo validPayload) tokOkW (Except.ok ()) "t" (Sum.inr validPayload) :=
  ⟨c3_body_normalization.1 parseNone "not json" rfl,
   c3_body_normalization.2.2.2.1 (parseTo validPayload) "s" validPayload envOkW tokOkW
     (Except.ok ()) "t" rfl⟩

/-- C4 counterexample: the SMTP variant performs no transport-configuration
check — with every SMTP variable absent and a fully-valid payload, a
succeeding send yields 200 ok (not a 500 fixed configuration error), and a
failing send yields a 500 whose message is the downstream send error. -/
theorem c4_counterexample :
    (smtpHandler smtpEnvNone parseNone (Except.ok ()) "t" (Sum.inr validPayload)).response
      = (okBody, 200) ∧
    (smtpHandler smtpEnvNone parseNone (Except.error "connect ECONNREFUSED") "t"
      (Sum.inr validPayload)).response = (errBody "connect ECONNREFUSED", 500) :=
  ⟨rfl, rfl⟩

/-- C4 (amended): in the OAuth2 variant, for every validated request with
client id, client secret or refresh token missing, the function responds
500 with the fixed descriptive message and never attempts a send; the SMTP
variant performs no transport-configuration check, so its response is
determined by the send outcome alone (200 ok on success, 500 with the send
error's message on failure) regardless of configuration. -/
theorem c4_transport_config :
    (∀ env parseJson tokenRes sendRes now reqBody,
      missing (normalizePayload (parseReqBody parseJson reqBody)) = [] →
      (envTruthy env.GOOGLE_CLIENT_ID && envTruthy env.GOOGLE_CLIENT_SECRET
        && envTruthy env.GOOGLE_REFRESH_TOKEN) = false →
      (sbaOauthHandler env parseJson tokenRes sendRes now reqBody).response
        = (errBody oauthEnvErrMsg, 500) ∧
      (sbaOauthHandler env parseJson tokenRes sendRes now reqBody).sendCount = 0) ∧
    (∀ env parseJson now reqBody,
      missing (normalizePayload (parseReqBody parseJson reqBody)) = [] →
      (smtpHandler env parseJson (Except.ok ()) now reqBody).response = (okBody, 200) ∧
      (∀ m, (smtpHandler env parseJson (Except.error m) now reqBody).response
        = (errBody m, 500))) := by
  constructor
  · intro env parseJson tokenRes sendRes now reqBody hm hcfg
    have h0 : ((missing (normalizePayload (parseReqBody parseJson reqBody))).length != 0) = false := by
      simp [hm]
    have hc : (!envTruthy env.GOOGLE_CLIENT_ID || !envTruthy env.GOOGLE_CLIENT_SECRET
        || !envTruthy env.GOOGLE_REFRESH_TOKEN) = true := by
      revert hcfg
      cases envTruthy env.GOOGLE_CLIENT_ID <;> cases envTruthy env.GOOGLE_CLIENT_SECRET <;>
      cases envTruthy env.GOOGLE_REFRESH_TOKEN <;> simp
    constructor <;> simp [sbaOauthHandler, h0, hc]
  · intro env parseJson now reqBody hm
    have h0 : ((missing (normalizePayload (parseReqBody parseJson reqBody))).length != 0) = false := by
      simp [hm]
    refine ⟨by simp [smtpHandler, h0], ?_⟩
    intro m
    simp [smtpHandler, h0]

/-- C4 witness: with the client id absent the OAuth2 variant answers the
fixed 500 message; the unconfigured SMTP variant surfaces the send error. -/
theorem c4_transport_config_witness :
    (sbaOauthHandler envNoCid parseNone tokOkW (Except.ok ()) "t" (Sum.inr validPayload)).response
      = (errBody oauthEnvErrMsg, 500) ∧
    (smtpHandler smtpEnvNone parseNone (Except.error "x") "t" (Sum.inr validPayload)).response
      = (errBody "x", 500) :=
  ⟨(c4_transport_config.1 envNoCid parseNone tokOkW (Except.ok ()) "t" (Sum.inr validPayload)
      (by decide) (by decide)).1,
   (c4_transport_config.2 smtpEnvNone parseNone "t" (Sum.inr validPayload) (by decide)).2 "x"⟩

/-- C5: for every request that passes validation (and, in the OAuth2
variant, configuration and token checks), a successful send returns
exactly ok=true with status 200 and a throwing send is caught, yielding
500 with the underlying error's message; exactly one send attempt is made
in either case (no retry, nothing propagates uncaught). -/
theorem c5_send_outcome :
    (∀ env parseJson t sendRes now reqBody,
      missing (normalizePayload (parseReqBody parseJson reqBody)) = [] →
      envTruthy env.GOOGLE_CLIENT_ID = true →
      envTruthy env.GOOGLE_CLIENT_SECRET = true →
      envTruthy env.GOOGLE_REFRESH_TOKEN = true →
      t ≠ "" →
      ((sendRes = Except.ok () →
        (sbaOauthHandler env parseJson (Except.ok (some t)) sendRes now reqBody).response
          = (okBody, 200) ∧
        (sbaOauthHandler env parseJson (Except.ok (some t)) sendRes now reqBody).sendCount = 1) ∧
       (∀ m, sendRes = Except.error m →
        (sbaOauthHandler env parseJson (Except.ok (some t)) sendRes now reqBody).response
          = (errBody m, 500) ∧
        (sbaOauthHandler env parseJson (Except.ok (some t)) sendRes now reqBody).sendCount = 1))) ∧
    (∀ env parseJson sendRes now reqBody,
      missing (normalizePayload (parseReqBody parseJson reqBody)) = [] →
      ((sendRes = Except.ok () →
        (smtpHandler env parseJson sendRes now reqBody).response = (okBody, 200) ∧
        (smtpHandler env parseJson sendRes now reqBody).sendCount = 1) ∧
       (∀ m, sendRes = Except.error m →
        (smtpHandler env parseJson sendRes now reqBody).response = (errBody m, 500) ∧
        (smtpHandler env parseJson sendRes now reqBody).sendCount = 1))) := by
  constructor
  · intro env parseJson t sendRes now reqBody hm h1 h2 h3 ht
    have h0 : ((missing (normalizePayload (parseReqBody parseJson reqBody))).length != 0) = false := by
      simp [hm]
    have hc : (!envTruthy env.GOOGLE_CLIENT_ID || !envTruthy env.GOOGLE_CLIENT_SECRET
        || !envTruthy env.GOOGLE_REFRESH_TOKEN) = false := by
      simp [h1, h2, h3]
    constructor
    · rintro rfl
      constructor <;> simp [sbaOauthHandler, h0, hc, ht]
    · rintro m rfl
      constructor <;> simp [sbaOauthHandler, h0, hc, ht]
  · intro env parseJson sendRes now reqBody hm
    have h0 : ((missing (normalizePayload (parseReqBody parseJson reqBody))).length != 0) = false := by
      simp [hm]
    constructor
    · rintro rfl
      constructor <;> simp [smtpHandler, h0]
    · rintro m rfl
      constructor <;> simp [smtpHandler, h0]

/-- C5 witness: on the concrete valid payload, the OAuth2 variant returns
ok/200 for a successful send and the send error with 500 for a failing
one. -/
theorem c5_send_outcome_witness :
    (sbaOauthHandler envOkW parseNone (Except.ok (some "tok")) (Except.ok ()) "t"
      (Sum.inr validPayload)).response = (okBody, 200) ∧
    (sbaOauthHandler envOkW parseNone (Except.ok (some "tok")) (Except.error "boom") "t"
      (Sum.inr validPayload)).response = (errBody "boom", 500) :=
  ⟨((c5_send_outcome.1 envOkW parseNone "tok" (Except.ok ()) "t" (Sum.inr validPayload)
      (by decide) (by decide) (by decide) (by decide) (by decide)).1 rfl).1,
   ((c5_send_outcome.1 envOkW parseNone "tok" (Except.error "boom") "t" (Sum.inr validPayload)
      (by decide) (by decide) (by decide) (by decide) (by decide)).2 "boom" rfl).1⟩

/-- C6: in the OAuth2 variant with all three secrets configured, a token
exchange that throws, returns no token, or returns an empty token yields
500 with the fixed message "Failed to mint Gmail access token." and the
transporter's send is never invoked. -/
theorem c6_token_mint_failure :
    ∀ env parseJson tokenRes sendRes now reqBody,
      missing (normalizePayload (parseReqBody parseJson reqBody)) = [] →
      envTruthy env.GOOGLE_CLIENT_ID = true →
      envTruthy env.GOOGLE_CLIENT_SECRET = true →
      envTruthy env.GOOGLE_REFRESH_TOKEN = true →
      ((∃ e, tokenRes = Except.error e) ∨ tokenRes = Except.ok none
        ∨ tokenRes = Except.ok (some "")) →
      (sbaOauthHandler env parseJson tokenRes sendRes now reqBody).response
        = (errBody mintErrMsg, 500) ∧
      (sbaOauthHandler env parseJson tokenRes sendRes now reqBody).sendCount = 0 := by
  intro env parseJson tokenRes sendRes now reqBody hm h1 h2 h3 htok
  have h0 : ((missing (normalizePayload (parseReqBody parseJson reqBody))).length != 0) = false := by
    simp [hm]
  have hc : (!envTruthy env.GOOGLE_CLIENT_ID || !envTruthy env.GOOGLE_CLIENT_SECRET
      || !envTruthy env.GOOGLE_REFRESH_TOKEN) = false := by
    simp [h1, h2, h3]
  rcases htok with ⟨e, rfl⟩ | rfl | rfl <;>
    exact ⟨by simp [sbaOauthHandler, h0, hc], by simp [sbaOauthHandler, h0, hc]⟩

/-- C6 witness: an empty-token exchange on the valid payload yields the
fixed mint-failure 500 with zero send attempts. -/
theorem c6_token_mint_failure_witness :
    (sbaOauthHandler envOkW parseNone (Except.ok (some "")) (Except.ok ()) "t"
      (Sum.inr validPayload)).response = (errBody mintErrMsg, 500) ∧
    (sbaOauthHandler envOkW parseNone (Except.ok (some "")) (Except.ok ()) "t"
      (Sum.inr validPayload)).sendCount = 0 :=
  c6_token_mint_failure envOkW parseNone (Except.ok (some "")) (Except.ok ()) "t"
    (Sum.inr validPayload) (by decide) (by decide) (by decide) (by decide)
    (Or.inr (Or.inr rfl))

/-- C7: in the OAuth2 variant, for every validated request with any of the
three secrets absent, the function responds 500 with the fixed message
before any network call: no token exchange and no send is attempted. -/
theorem c7_oauth_secrets_short_circuit :
    ∀ env parseJson tokenRes sendRes now reqBody,
      missing (normalizePayload (parseReqBody parseJson reqBody)) = [] →
      (envTruthy env.GOOGLE_CLIENT_ID && envTruthy env.GOOGLE_CLIENT_SECRET
        && envTruthy env.GOOGLE_REFRESH_TOKEN) = false →
      (sbaOauthHandler env parseJson tokenRes sendRes now reqBody).response
        = (errBody oauthEnvErrMsg, 500) ∧
      (sbaOauthHandler env parseJson tokenRes sendRes now reqBody).tokenExchanged = false ∧
      (sbaOauthHandler env parseJson tokenRes sendRes now reqBody).sendCount = 0 := by
  intro env parseJson tokenRes sendRes now reqBody hm hcfg
  have h0 : ((missing (normalizePayload (parseReqBody parseJson reqBody))).length != 0) = false := by
    simp [hm]
  have hc : (!envTruthy env.GOOGLE_CLIENT_ID || !envTruthy env.GOOGLE_CLIENT_SECRET
      || !envTruthy env.GOOGLE_REFRESH_TOKEN) = true := by
    revert hcfg
    cases envTruthy env.GOOGLE_CLIENT_ID <;> cases envTruthy env.GOOGLE_CLIENT_SECRET <;>
    cases envTruthy env.GOOGLE_REFRESH_TOKEN <;> simp
  exact ⟨by simp [sbaOauthHandler, h0, hc], by simp [sbaOauthHandler, h0, hc],
    by simp [sbaOauthHandler, h0, hc]⟩

/-- C7 witness: with the client id absent, the valid payload gets the fixed
500 with no token exchange and no send. -/
theorem c7_oauth_secrets_short_circuit_witness :
    (sbaOauthHandler envNoCid parseNone tokOkW (Except.ok ()) "t"
      (Sum.inr validPayload)).tokenExchanged = false ∧
    (sbaOauthHandler envNoCid parseNone tokOkW (Except.ok ()) "t"
      (Sum.inr validPayload)).sendCount = 0 :=
  ⟨(c7_oauth_secrets_short_circuit envNoCid parseNone tokOkW (Except.ok ()) "t"
      (Sum.inr validPayload) (by decide) (by decide)).2.1,
   (c7_oauth_secrets_short_circuit envNoCid parseNone tokOkW (Except.ok ()) "t"
      (Sum.inr validPayload) (by decide) (by decide)).2.2⟩

/-- C8: the rendered values follow the fallback chains: cycleLabel falls
back to cycle, packageLabel to package, phone to whatsapp (with validation
passing), fullName to name; absent contact fields default to "Unknown" and
absent goals/message to the empty string. -/
theorem c8_fallback_chains : ∀ p : Js,
    (∀ c, getProp p "cycleLabel" = none → getProp p "cycle" = some c → truthy c = true →
      (extractSubmission p).cycleLabel = c) ∧
    (∀ q, getProp p "packageLabel" = none → getProp p "package" = some q → truthy q = true →
      (extractSubmission p).packageLabel = q) ∧
    (∀ w, getProp p "phone" = none → getProp p "whatsapp" = some w → truthy w = true →
      (extractSubmission p).phone = w ∧ "phone" ∉ missing p) ∧
    (∀ n, getProp p "fullName" = none → getProp p "name" = some n → truthy n = true →
      (extractSubmission p).fullName = n) ∧
    (getProp p "fullName" = none → getProp p "name" = none →
      (extractSubmission p).fullName = Js.str "Unknown") ∧
    (getProp p "email" = none → (extractSubmission p).userEmail = Js.str "Unknown") ∧
    (getProp p "phone" = none → getProp p "whatsapp" = none →
      (extractSubmission p).phone = Js.str "Unknown") ∧
    (getProp p "experience" = none → (extractSubmission p).experience = Js.str "Unknown") ∧
    (getProp p "goals" = none → (extractSubmission p).goals = Js.str "") ∧
    (getProp p "message" = none → (extractSubmission p).message = Js.str "") := by
  intro p
  refine ⟨?_, ?_, ?_, ?_, ?_, ?_, ?_, ?_, ?_, ?_⟩
  · intro c hcl hc htc
    simp [extractSubmission, jsOr, hcl, hc, htc]
  · intro q hpl hq htq
    simp [extractSubmission, jsOr, hpl, hq, htq]
  · intro w hph hwa htw
    constructor
    · simp [extractSubmission, jsOr, hph, hwa, htw]
    · have hcond : (!truthyProp p "phone" && !truthyProp p "whatsapp") = false := by
        simp [truthyProp, hwa, htw]
      simp only [missing, hcond, Bool.false_eq_true, if_false, List.append_nil]
      split_ifs <;> decide
  · intro n hfn hn htn
    simp [extractSubmission, jsOr, hfn, hn, htn]
  · intro hfn hn
    simp [extractSubmission, jsOr, hfn, hn]
  · intro h
    simp [extractSubmission, jsOr, h]
  · intro hph hwa
    simp [extractSubmission, jsOr, hph, hwa]
  · intro h
    simp [extractSubmission, jsOr, h]
  · intro h
    simp [extractSubmission, jsOr, h]
  · intro h
    simp [extractSubmission, jsOr, h]

/-- C8 witness: on a payload using only the alternate keys (name, whatsapp,
cycle, packageLabel), the fallbacks produce the alternate values and the
phone check passes. -/
theorem c8_fallback_chains_witness :
    (extractSubmission altKeysPayload).cycleLabel = Js.str "CY" ∧
    (extractSubmission altKeysPayload).phone = Js.str "W" ∧
    "phone" ∉ missing altKeysPayload ∧
    (extractSubmission altKeysPayload).fullName = Js.str "N" :=
  ⟨(c8_fallback_chains altKeysPayload).1 (Js.str "CY") rfl rfl rfl,
   ((c8_fallback_chains altKeysPayload).2.2.1 (Js.str "W") rfl rfl rfl).1,
   ((c8_fallback_chains altKeysPayload).2.2.1 (Js.str "W") rfl rfl rfl).2,
   (c8_fallback_chains altKeysPayload).2.2.2.1 (Js.str "N") rfl rfl rfl⟩

/-- C9: in both variants, whenever a mail is handed to the transport its
reply-to equals the submitted email value exactly when that value is not
the string "Unknown"; when it equals "Unknown" (including a literally
submitted "Unknown") reply-to is unset, and the from field always carries
the fixed display name "SBA Website". -/
theorem c9_reply_to :
    (∀ env parseJson t sendRes now reqBody,
      missing (normalizePayload (parseReqBody parseJson reqBody)) = [] →
      envTruthy env.GOOGLE_CLIENT_ID = true →
      envTruthy env.GOOGLE_CLIENT_SECRET = true →
      envTruthy env.GOOGLE_REFRESH_TOKEN = true →
      t ≠ "" →
      ∃ mo, (sbaOauthHandler env parseJson (Except.ok (some t)) sendRes now reqBody).mail = some mo ∧
        mo.fromField = "\"SBA Website\" <" ++ envOr env.GMAIL_SENDER "silvaboxingacademy@gmail.com" ++ ">" ∧
        ((extractSubmission (normalizePayload (parseReqBody parseJson reqBody))).userEmail
            = Js.str "Unknown" → mo.replyTo = none) ∧
        ((extractSubmission (normalizePayload (parseReqBody parseJson reqBody))).userEmail
            ≠ Js.str "Unknown" →
          mo.replyTo = some (extractSubmission (normalizePayload (parseReqBody parseJson reqBody))).userEmail)) ∧
    (∀ env parseJson sendRes now reqBody,
      missing (normalizePayload (parseReqBody parseJson reqBody)) = [] →
      ∃ mo, (smtpHandler env parseJson sendRes now reqBody).mail = some mo ∧
        mo.fromField = "\"SBA Website\" <" ++ envInterp env.SMTP_USER ++ ">" ∧
        ((extractSubmission (normalizePayload (parseReqBody parseJson reqBody))).userEmail
            = Js.str "Unknown" → mo.replyTo = none) ∧
        ((extractSubmission (normalizePayload (parseReqBody parseJson reqBody))).userEmail
            ≠ Js.str "Unknown" →
          mo.replyTo = some (extractSubmission (normalizePayload (parseReqBody parseJson reqBody))).userEmail)) := by
  constructor
  · intro env parseJson t sendRes now reqBody hm h1 h2 h3 ht
    have h0 : ((missing (normalizePayload (parseReqBody parseJson reqBody))).length != 0) = false := by
      simp [hm]
    have hc : (!envTruthy env.GOOGLE_CLIENT_ID || !envTruthy env.GOOGLE_CLIENT_SECRET
        || !envTruthy env.GOOGLE_REFRESH_TOKEN) = false := by
      simp [h1, h2, h3]
    have hmail : (sbaOauthHandler env parseJson (Except.ok (some t)) sendRes now reqBody).mail = some
        { fromField := "\"SBA Website\" <" ++ envOr env.GMAIL_SENDER "silvaboxingacademy@gmail.com" ++ ">"
        , toField := envOr env.SBA_ADMIN_EMAIL "silvaboxingacademy@gmail.com"
        , replyTo := replyToOf (extractSubmission (normalizePayload (parseReqBody parseJson reqBody))).userEmail
        , subject := renderSubject (extractSubmission (normalizePayload (parseReqBody parseJson reqBody)))
        , html := renderHtml now (extractSubmission (normalizePayload (parseReqBody parseJson reqBody))) } := by
      cases sendRes <;> simp [sbaOauthHandler, h0, hc, ht]
    refine ⟨_, hmail, rfl, ?_, ?_⟩
    · intro h
      simp [h, replyToOf]
    · intro h
      simp [replyToOf_ne h]
  · intro env parseJson sendRes now reqBody hm
    have h0 : ((missing (normalizePayload (parseReqBody parseJson reqBody))).length != 0) = false := by
      simp [hm]
    have hmail : (smtpHandler env parseJson sendRes now reqBody).mail = some
        { fromField := "\"SBA Website\" <" ++ envInterp env.SMTP_USER ++ ">"
        , toField := envOr env.SBA_ADMIN_EMAIL "silvaboxingacademy@gmail.com"
        , replyTo := replyToOf (extractSubmission (normalizePayload (parseReqBody parseJson reqBody))).userEmail
        , subject := renderSubject (extractSubmission (normalizePayload (parseReqBody parseJson reqBody)))
        , html := renderHtml now (extractSubmission (normalizePayload (parseReqBody parseJson reqBody))) } := by
      cases sendRes <;> simp [smtpHandler, h0]
    refine ⟨_, hmail, rfl, ?_, ?_⟩
    · intro h
      simp [h, replyToOf]
    · intro h
      simp [replyToOf_ne h]

/-- C9 witness: a literally submitted "Unknown" email leaves reply-to
unset. -/
theorem c9_reply_to_witness :
    ∃ mo, (sbaOauthHandler envOkW parseNone (Except.ok (some "tok")) (Except.ok ()) "t"
      (Sum.inr (Js.obj [("fullName", Js.str "J"), ("email", Js.str "Unknown"),
        ("phone", Js.str "1"), ("cycle", Js.str "c"), ("package", Js.str "p")]))).mail = some mo ∧
      mo.replyTo = none := by
  obtain ⟨mo, hmo, _, hunk, _⟩ := c9_reply_to.1 envOkW parseNone "tok" (Except.ok ()) "t"
    (Sum.inr (Js.obj [("fullName", Js.str "J"), ("email", Js.str "Unknown"),
      ("phone", Js.str "1"), ("cycle", Js.str "c"), ("package", Js.str "p")]))
    (by decide) (by decide) (by decide) (by decide) (by decide)
  exact ⟨mo, hmo, hunk rfl⟩

/-- C10: the validator tests truthiness, not presence: a required field
bound to a falsy value (such as the empty string) is reported missing
exactly as if the field were absent. -/
theorem c10_truthiness_validation :
    (∀ (l : List (String × Js)) (k : String) (v : Js),
      truthy v = false → lookupStr k l = none →
      missing (Js.obj ((k, v) :: l)) = missing (Js.obj l)) ∧
    (∀ p : Js, truthyProp p "email" = false → "email" ∈ missing p) ∧
    (∀ p : Js, getProp p "email" = some (Js.str "") → "email" ∈ missing p) := by
  have hmem : ∀ p : Js, truthyProp p "email" = false → "email" ∈ missing p := by
    intro p h
    have hcond : (!truthyProp p "email") = true := by simp [h]
    simp [missing, hcond]
  refine ⟨?_, hmem, ?_⟩
  · intro l k v hv hk
    have ht := truthyProp_cons hv hk
    simp only [missing, ht]
  · intro p h
    refine hmem p ?_
    simp [truthyProp, h, truthy]

/-- C10 witness: an empty-string email behaves exactly like an absent
email for the validator. -/
theorem c10_truthiness_validation_witness :
    missing (Js.obj (("email", Js.str "") :: [("fullName", Js.str "A")]))
      = missing (Js.obj [("fullName", Js.str "A")]) ∧
    "email" ∈ missing (Js.obj [("email", Js.str ""), ("fullName", Js.str "A")]) :=
  ⟨c10_truthiness_validation.1 [("fullName", Js.str "A")] "email" (Js.str "") (by decide) rfl,
   c10_truthiness_validation.2.2 (Js.obj [("email", Js.str ""), ("fullName", Js.str "A")]) rfl⟩
